import Mathlib

/-!
Verification of the `LiteYouTube` deferred video-embed widget.

The development shallowly embeds the two copies of the widget found in the
repository: `src/components/LiteYouTube.tsx` (the full version, with a
webp poster format and a jpg fallback) and the near-duplicate copy embedded
in `src/index.tsx` (jpg-only posters).  React `useState` cells become the
fields of `WidgetState`; the event handlers (`onClick` of the poster button
and `onError` of the poster image) become the total step function `step`;
the component's JSX output becomes the `render` function into
`RenderOutput`.
-/

namespace LiteYouTube

/-- The five poster quality tiers of `LiteYouTubeProps['posterQuality']`. -/
inductive PosterQuality where
  | default
  | mqdefault
  | hqdefault
  | sddefault
  | maxresdefault
deriving DecidableEq, Repr

/-- The string each quality tier interpolates into URLs as. -/
def PosterQuality.toString : PosterQuality → String
  | .default => "default"
  | .mqdefault => "mqdefault"
  | .hqdefault => "hqdefault"
  | .sddefault => "sddefault"
  | .maxresdefault => "maxresdefault"

/-- The two poster image formats of `LiteYouTubeProps['posterFormat']`. -/
inductive PosterFormat where
  | jpg
  | webp
deriving DecidableEq, Repr

/-- `POSTER_WIDTHS` table of `src/components/LiteYouTube.tsx`. -/
def POSTER_WIDTHS : PosterQuality → Nat
  | .default => 120
  | .mqdefault => 320
  | .hqdefault => 480
  | .sddefault => 640
  | .maxresdefault => 1280

/-- `POSTER_QUALITIES` array of `src/components/LiteYouTube.tsx`. -/
def POSTER_QUALITIES : List PosterQuality :=
  [.default, .mqdefault, .hqdefault, .sddefault, .maxresdefault]

/-- The props of `src/components/LiteYouTube.tsx`, with the defaults the
destructuring pattern of the component supplies. -/
structure LiteYouTubeProps where
  videoId : String
  title : String
  className : String := ""
  autoPlay : Bool := false
  posterQuality : PosterQuality := .mqdefault
  posterFormat : PosterFormat := .webp
  priority : Bool := false

/-- The two `useState` cells of one widget instance:
`isActive` and `useFallbackPoster`. -/
structure WidgetState where
  isActive : Bool
  useFallbackPoster : Bool
deriving DecidableEq, Repr

/-- Initial state: `useState(autoPlay)` and `useState(false)`. -/
def initState (p : LiteYouTubeProps) : WidgetState :=
  { isActive := p.autoPlay, useFallbackPoster := false }

/-- The two events a widget instance can receive: the poster button's
`onClick` (activation) and the poster image's `onError`. -/
inductive Event where
  | activate
  | imgError
deriving DecidableEq, Repr

/-- The event handlers of the component: `onClick=() => setIsActive(true)`
and `onError=() => setUseFallbackPoster(true)`.  Both are total: neither
handler can fail or surface an error to the caller. -/
def step (s : WidgetState) : Event → WidgetState
  | .activate => { s with isActive := true }
  | .imgError => { s with useFallbackPoster := true }

/-- Run a sequence of events from a state. -/
def steps (s : WidgetState) (evs : List Event) : WidgetState :=
  evs.foldl step s

/-- The local `format` binding of `buildPosterUrl`:
`useFallbackPoster ? 'jpg' : posterFormat`. -/
def effectiveFormat (posterFormat : PosterFormat) (useFallbackPoster : Bool) :
    PosterFormat :=
  if useFallbackPoster then .jpg else posterFormat

/-- `buildPosterUrl` of `src/components/LiteYouTube.tsx`. -/
def buildPosterUrl (posterFormat : PosterFormat) (useFallbackPoster : Bool)
    (videoId : String) (quality : PosterQuality) : String :=
  let format := effectiveFormat posterFormat useFallbackPoster
  let folder := if format = PosterFormat.webp then "vi_webp" else "vi"
  let extension := if format = PosterFormat.webp then "webp" else "jpg"
  "https://i.ytimg.com/" ++ folder ++ "/" ++ videoId ++ "/" ++
    quality.toString ++ "." ++ extension

/-- The fixed query parameters passed to `URLSearchParams`, in insertion
order. -/
def embedParams : List (String × String) :=
  [("autoplay", "1"), ("rel", "0"), ("modestbranding", "1"),
   ("playsinline", "1")]

/-- `URLSearchParams.toString()` on the fixed parameter set: the
`key=value` pairs joined by `&` in insertion order (every key and value
here is alphanumeric, so form-urlencoding is the identity on them). -/
def serializeParams (ps : List (String × String)) : String :=
  String.intercalate "&" (ps.map fun kv => kv.1 ++ "=" ++ kv.2)

/-- `videoSrc` of `src/components/LiteYouTube.tsx`: the base embed URL,
suffixed with the fixed query string only when the widget is active. -/
def videoSrc (isActive : Bool) (videoId : String) : String :=
  let base := "https://www.youtube.com/embed/" ++ videoId
  if !isActive then base
  else base ++ "?" ++ serializeParams embedParams

/-- `posterSrcSet` of `src/components/LiteYouTube.tsx`. -/
def posterSrcSet (posterFormat : PosterFormat) (useFallbackPoster : Bool)
    (videoId : String) : String :=
  String.intercalate ", "
    (POSTER_QUALITIES.map fun q =>
      buildPosterUrl posterFormat useFallbackPoster videoId q ++ " " ++
        ToString.toString (POSTER_WIDTHS q) ++ "w")

/-- The component's JSX output.  The two conditional branches
`!isActive && <button …>` and `isActive && <iframe …>` are mutually
exclusive and exhaustive, so the output is one of two shapes: the clickable
poster (image source, srcset, accessible label, alt text) or the live
player (iframe source, title). -/
inductive RenderOutput where
  | poster (src : String) (srcSet : String) (ariaLabel : String)
      (alt : String)
  | player (src : String) (title : String)
deriving DecidableEq, Repr

/-- Whether the render output is the live player branch. -/
def RenderOutput.isPlayer : RenderOutput → Bool
  | .player _ _ => true
  | .poster _ _ _ _ => false

/-- Whether the render output is the clickable poster branch. -/
def RenderOutput.isPoster : RenderOutput → Bool
  | .poster _ _ _ _ => true
  | .player _ _ => false

/-- The player source URL the render output contains, when it contains
one. -/
def playerUrlOf : RenderOutput → Option String
  | .player src _ => some src
  | .poster _ _ _ _ => none

/-- The accessible label of the poster button, when the poster is
rendered. -/
def ariaLabelOf : RenderOutput → Option String
  | .poster _ _ lbl _ => some lbl
  | .player _ _ => none

/-- The render function of `src/components/LiteYouTube.tsx`: Dormant
(`isActive = false`) renders the poster button with
`aria-label={Play $title}` and `alt={$title preview frame}`; Active
renders the iframe with `src={videoSrc}`. -/
def render (p : LiteYouTubeProps) (s : WidgetState) : RenderOutput :=
  if s.isActive then
    .player (videoSrc true p.videoId) p.title
  else
    .poster
      (buildPosterUrl p.posterFormat s.useFallbackPoster p.videoId
        p.posterQuality)
      (posterSrcSet p.posterFormat s.useFallbackPoster p.videoId)
      ("Play " ++ p.title)
      (p.title ++ " preview frame")

/-! The near-duplicate copy of the widget embedded in `src/index.tsx`:
no `posterFormat` or `priority` prop, `posterQuality` defaults to
`hqdefault`, the poster is always `vi`/`jpg`, and there is no fallback
state. -/

/-- The props of the `src/index.tsx` copy. -/
structure LiteYouTubePropsIndex where
  videoId : String
  title : String
  className : String := ""
  autoPlay : Bool := false
  posterQuality : PosterQuality := .hqdefault

/-- `videoSrc` of the `src/index.tsx` copy. -/
def videoSrcIndex (isActive : Bool) (videoId : String) : String :=
  let base := "https://www.youtube.com/embed/" ++ videoId
  if !isActive then base
  else base ++ "?" ++ serializeParams embedParams

/-- `posterUrl` of the `src/index.tsx` copy. -/
def posterUrlIndex (videoId : String) (quality : PosterQuality) : String :=
  "https://i.ytimg.com/vi/" ++ videoId ++ "/" ++ quality.toString ++ ".jpg"

/-! Shared helper lemmas. -/

/-- Once `isActive` is true, running any further events keeps it true:
`step` never clears either Boolean field. -/
theorem isActive_steps_of_isActive (s : WidgetState) (evs : List Event)
    (h : s.isActive = true) : (steps s evs).isActive = true := by
  induction evs generalizing s with
  | nil => exact h
  | cons e rest ih =>
    cases e with
    | activate => exact ih _ rfl
    | imgError => exact ih _ h

/-- Once `useFallbackPoster` is true, running any further events keeps it
true. -/
theorem fallback_steps_of_fallback (s : WidgetState) (evs : List Event)
    (h : s.useFallbackPoster = true) :
    (steps s evs).useFallbackPoster = true := by
  induction evs generalizing s with
  | nil => exact h
  | cons e rest ih =>
    cases e with
    | activate => exact ih _ h
    | imgError => exact ih _ rfl

/-! Concrete props used by witness theorems. -/

/-- An example props record with `autoPlay = true`. -/
def propsAuto : LiteYouTubeProps :=
  { videoId := "abc123", title := "Demo video", autoPlay := true }

/-- An example props record with the default `autoPlay = false`. -/
def propsDorm : LiteYouTubeProps :=
  { videoId := "abc123", title := "Demo video" }

/-! Claim theorems. -/

/-- C1: Activation is idempotent and one-way.  From any state a
user-initiated activation event yields `isActive = true` (so Dormant
transitions to Active); triggering activation a second time leaves the
state unchanged (still Active); and from any Active state no sequence of
events (image load failures included) ever returns the widget to
Dormant. -/
theorem activation_idempotent_one_way (s s' : WidgetState)
    (evs : List Event) (h : s'.isActive = true) :
    (step s .activate).isActive = true ∧
    step (step s .activate) .activate = step s .activate ∧
    (steps s' evs).isActive = true :=
  ⟨rfl, rfl, isActive_steps_of_isActive s' evs h⟩

/-- Witness for C1: the activation and idempotence conjuncts at the
concrete Dormant state `⟨false, false⟩`, and the one-way conjunct at the
Active state `⟨true, false⟩` with the event sequence
`[imgError, activate]`. -/
theorem activation_idempotent_one_way_witness :
    (step ⟨false, false⟩ .activate).isActive = true ∧
    step (step (⟨false, false⟩ : WidgetState) .activate) .activate =
      step ⟨false, false⟩ .activate ∧
    (steps ⟨true, false⟩ [.imgError, .activate]).isActive = true :=
  activation_idempotent_one_way ⟨false, false⟩ ⟨true, false⟩
    [.imgError, .activate] rfl

/-- C2: on construction the initial state is Active iff `autoPlay` is
true; with `autoPlay = true` the initial render (and every render
thereafter) shows the player and never the poster; with
`autoPlay = false` the initial render shows the poster. -/
theorem initState_matches_autoplay (p : LiteYouTubeProps) :
    (initState p).isActive = p.autoPlay ∧
    (p.autoPlay = true →
      ∀ evs : List Event,
        (render p (steps (initState p) evs)).isPlayer = true) ∧
    (p.autoPlay = false → (render p (initState p)).isPoster = true) := by
  refine ⟨rfl, fun h evs => ?_, fun h => ?_⟩
  · have hact : (steps (initState p) evs).isActive = true :=
      isActive_steps_of_isActive _ _ (by simp [initState, h])
    simp [render, hact, RenderOutput.isPlayer]
  · simp [render, initState, h, RenderOutput.isPoster]

/-- Witness for C2 at the concrete props `propsAuto` (with the event
sequence `[imgError]`) and `propsDorm`. -/
theorem initState_matches_autoplay_witness :
    (initState propsAuto).isActive = propsAuto.autoPlay ∧
    (render propsAuto (steps (initState propsAuto) [.imgError])).isPlayer =
      true ∧
    (render propsDorm (initState propsDorm)).isPoster = true :=
  ⟨(initState_matches_autoplay propsAuto).1,
   (initState_matches_autoplay propsAuto).2.1 rfl [.imgError],
   (initState_matches_autoplay propsDorm).2.2 rfl⟩

/-- C3: for every `videoId`, once the widget is Active the player source
URL is the base embed URL suffixed with exactly
`autoplay=1&rel=0&modestbranding=1&playsinline=1` in that order; in
particular for `videoId = "xyz789"` it equals the expected literal. -/
theorem videoSrc_active_shape (videoId : String) :
    videoSrc true videoId =
      "https://www.youtube.com/embed/" ++ videoId ++
        "?autoplay=1&rel=0&modestbranding=1&playsinline=1" ∧
    videoSrc true "xyz789" =
      "https://www.youtube.com/embed/xyz789?autoplay=1&rel=0&modestbranding=1&playsinline=1" := by
  constructor
  · show "https://www.youtube.com/embed/" ++ videoId ++ "?" ++
      serializeParams embedParams = _
    simp only [String.append_assoc]
    rfl
  · rfl

/-- C4: the poster URL is always
`https://i.ytimg.com/<folder>/<videoId>/<quality>.<ext>` where the
folder/extension pair is exactly `vi_webp`/`webp` when the effective
format is webp and `vi`/`jpg` otherwise — never a mixed pair; in
particular the concrete round-trip for `"abc123"`/`hqdefault`/webp/no
fallback yields the expected literal. -/
theorem buildPosterUrl_shape (pf : PosterFormat) (fb : Bool)
    (videoId : String) (q : PosterQuality) :
    buildPosterUrl pf fb videoId q =
      (if effectiveFormat pf fb = PosterFormat.webp then
        "https://i.ytimg.com/vi_webp/" ++ videoId ++ "/" ++ q.toString ++
          ".webp"
      else
        "https://i.ytimg.com/vi/" ++ videoId ++ "/" ++ q.toString ++
          ".jpg") ∧
    buildPosterUrl .webp false "abc123" .hqdefault =
      "https://i.ytimg.com/vi_webp/abc123/hqdefault.webp" := by
  refine ⟨?_, rfl⟩
  cases fb <;> cases pf <;>
    simp only [buildPosterUrl, effectiveFormat, if_true, if_false,
      reduceCtorEq, reduceIte, String.append_assoc] <;> rfl

/-- C5: an image load failure while the effective format is webp sets
the fallback flag, after which every subsequently computed poster URL
(after any further event sequence, a second failure included) uses the
`vi` folder and `jpg` extension; and a second load failure leaves the
state — hence the computed URL — unchanged. -/
theorem fallback_monotonic (p : LiteYouTubeProps) (s : WidgetState)
    (evs : List Event) (q : PosterQuality)
    (_h : effectiveFormat p.posterFormat s.useFallbackPoster =
      PosterFormat.webp) :
    buildPosterUrl p.posterFormat
        (steps (step s .imgError) evs).useFallbackPoster p.videoId q =
      "https://i.ytimg.com/vi/" ++ p.videoId ++ "/" ++ q.toString ++
        ".jpg" ∧
    step (step s .imgError) .imgError = step s .imgError := by
  refine ⟨?_, rfl⟩
  have hfb : (steps (step s .imgError) evs).useFallbackPoster = true :=
    fallback_steps_of_fallback _ _ rfl
  rw [hfb]
  simp only [buildPosterUrl, effectiveFormat, if_true, reduceCtorEq,
    reduceIte, String.append_assoc]
  rfl

/-- Witness for C5 at `propsDorm` (webp poster format, fallback unset),
the initial state and the event sequence `[imgError]` (a second
failure). -/
theorem fallback_monotonic_witness :
    buildPosterUrl propsDorm.posterFormat
        (steps (step (initState propsDorm) .imgError)
          [.imgError]).useFallbackPoster propsDorm.videoId .mqdefault =
      "https://i.ytimg.com/vi/" ++ propsDorm.videoId ++ "/" ++
        PosterQuality.toString .mqdefault ++ ".jpg" ∧
    step (step (initState propsDorm) .imgError) .imgError =
      step (initState propsDorm) .imgError :=
  fallback_monotonic propsDorm (initState propsDorm) [.imgError]
    .mqdefault rfl

/-- C6: with `autoPlay = false` the initial render shows the poster and
not the player, and while the state is Dormant the render output
contains no player URL for the video. -/
theorem dormant_has_no_player_url (p : LiteYouTubeProps)
    (s : WidgetState) (hauto : p.autoPlay = false)
    (hdorm : s.isActive = false) :
    (render p (initState p)).isPoster = true ∧
    (render p (initState p)).isPlayer = false ∧
    playerUrlOf (render p s) = none := by
  refine ⟨?_, ?_, ?_⟩ <;>
    simp [render, initState, hauto, hdorm, RenderOutput.isPoster,
      RenderOutput.isPlayer, playerUrlOf]

/-- Witness for C6 at `propsDorm` and its initial state. -/
theorem dormant_has_no_player_url_witness :
    (render propsDorm (initState propsDorm)).isPoster = true ∧
    (render propsDorm (initState propsDorm)).isPlayer = false ∧
    playerUrlOf (render propsDorm (initState propsDorm)) = none :=
  dormant_has_no_player_url propsDorm (initState propsDorm) rfl rfl

/-- C7: handling a poster image load failure changes only the fallback
flag: the new state is exactly the old one with `useFallbackPoster` set,
`isActive` is untouched, and a second failure is a no-op.  The handler is
the total function `step · .imgError` into `WidgetState`: it has no error
or fatal outcome to surface. -/
theorem imgError_frame (s : WidgetState) :
    step s .imgError = { s with useFallbackPoster := true } ∧
    (step s .imgError).isActive = s.isActive ∧
    step (step s .imgError) .imgError = step s .imgError :=
  ⟨rfl, rfl, rfl⟩

/-- C8: whenever the widget is Dormant, the clickable poster's
accessible label is `Play <title>`, which contains the literal `title`
as a substring. -/
theorem poster_label_contains_title (p : LiteYouTubeProps)
    (s : WidgetState) (h : s.isActive = false) :
    ariaLabelOf (render p s) = some ("Play " ++ p.title) ∧
    ∃ before after : String,
      "Play " ++ p.title = before ++ p.title ++ after := by
  refine ⟨by simp [render, h, ariaLabelOf], "Play ", "", ?_⟩
  rw [String.append_empty]

/-- Witness for C8 at `propsDorm` and its initial (Dormant) state. -/
theorem poster_label_contains_title_witness :
    ariaLabelOf (render propsDorm (initState propsDorm)) =
      some ("Play " ++ propsDorm.title) ∧
    ∃ before after : String,
      "Play " ++ propsDorm.title = before ++ propsDorm.title ++ after :=
  poster_label_contains_title propsDorm (initState propsDorm) rfl

/-- C9: the `src/components/LiteYouTube.tsx` version and the duplicate
copy in `src/index.tsx` compute extensionally equal player source URLs
for every `videoId` and every activation state. -/
theorem duplicate_versions_equal_videoSrc (videoId : String)
    (isActive : Bool) :
    videoSrc isActive videoId = videoSrcIndex isActive videoId := rfl

/-- C10: neither URL constructor validates `videoId`: on the empty
string both are total and return the well-formed strings with an empty
path segment — the dormant player URL `https://www.youtube.com/embed/`
and, for every quality tier, the poster URL
`https://i.ytimg.com/vi_webp//<quality>.webp`. -/
theorem empty_videoId_total (q : PosterQuality) :
    videoSrc false "" = "https://www.youtube.com/embed/" ∧
    buildPosterUrl .webp false "" q =
      "https://i.ytimg.com/vi_webp//" ++ q.toString ++ ".webp" := by
  refine ⟨rfl, ?_⟩
  cases q <;> rfl

end LiteYouTube
